/-
Verification of the Grafana OnCall plugin front-end against its
natural-language specification.

The development shallowly embeds the relevant TypeScript sources:
  * `src/grafana-plugin/src/utils/authorization/index.ts` (role/permission
    utility): `roleMapping`, `userHasMinimumRequiredRole`,
    `isUserActionAllowed`, `generatePermissionString`, `constructAction`
    and the `UserActions` table.
  * the Incidents page component (pagination window, selection, bulk
    actions, polling intervals) as a state-transition system.
  * the Integrations page component (query-param parsing, debounced filter
    application, creation-polling counters, unmount cleanup) as a
    state-transition system.

JavaScript numbers appearing here are used only integrally, so they are
modelled as `Int` (query parameters) or `Nat` (counters and timer ids).
JavaScript objects used as string-keyed maps are modelled as functions
`String → Option _`; timers created by `setInterval` are modelled by a
fresh-id allocator together with the set of ids not yet passed to
`clearInterval`.
-/
import Mathlib

namespace OnCall

/-! ## Authorization module
`src/grafana-plugin/src/utils/authorization/index.ts` -/

inductive OrgRole where
  | Admin
  | Editor
  | Viewer
  deriving DecidableEq, Repr, Fintype

structure UserAction where
  permission : String
  fallbackMinimumRoleRequired : OrgRole
  deriving DecidableEq, Repr

inductive Resource where
  | ALERT_GROUPS
  | INTEGRATIONS
  | ESCALATION_CHAINS
  | SCHEDULES
  | CHATOPS
  | OUTGOING_WEBHOOKS
  | MAINTENANCE
  | API_KEYS
  | NOTIFICATIONS
  | NOTIFICATION_SETTINGS
  | USER_SETTINGS
  | OTHER_SETTINGS
  | TEAMS
  | PLUGINS
  deriving DecidableEq, Repr, Fintype

/-- The string value of each `Resource` enum member. -/
def Resource.str : Resource → String
  | .ALERT_GROUPS => "alert-groups"
  | .INTEGRATIONS => "integrations"
  | .ESCALATION_CHAINS => "escalation-chains"
  | .SCHEDULES => "schedules"
  | .CHATOPS => "chatops"
  | .OUTGOING_WEBHOOKS => "outgoing-webhooks"
  | .MAINTENANCE => "maintenance"
  | .API_KEYS => "api-keys"
  | .NOTIFICATIONS => "notifications"
  | .NOTIFICATION_SETTINGS => "notification-settings"
  | .USER_SETTINGS => "user-settings"
  | .OTHER_SETTINGS => "other-settings"
  | .TEAMS => "teams"
  | .PLUGINS => "plugins"

inductive Action where
  | READ
  | WRITE
  | ADMIN
  | TEST
  | EXPORT
  | UPDATE_SETTINGS
  | INSTALL
  deriving DecidableEq, Repr, Fintype

/-- The string value of each `Action` enum member. -/
def Action.str : Action → String
  | .READ => "read"
  | .WRITE => "write"
  | .ADMIN => "admin"
  | .TEST => "test"
  | .EXPORT => "export"
  | .UPDATE_SETTINGS => "update-settings"
  | .INSTALL => "install"

def ONCALL_PERMISSION_BASE : String := "grafana-oncall-app"

/-- `roleMapping`: Admin ↦ 0, Editor ↦ 1, Viewer ↦ 2. -/
def roleMapping : OrgRole → Nat
  | .Admin => 0
  | .Editor => 1
  | .Viewer => 2

/-- `userHasMinimumRequiredRole`, with the global
`contextSrv.user.orgRole` made an explicit first argument. -/
def userHasMinimumRequiredRole (userOrgRole minimumRoleRequired : OrgRole) : Bool :=
  decide (roleMapping userOrgRole ≤ roleMapping minimumRoleRequired)

/-- `config.featureToggles`, restricted to the one toggle consulted. -/
structure FeatureToggles where
  accessControlOnCall : Bool
  deriving DecidableEq, Repr

/-- `contextSrv.user`: the org role plus the (possibly absent)
RBAC permissions object, a string-keyed map of booleans. -/
structure ContextUser where
  orgRole : OrgRole
  permissions : Option (String → Option Bool)

/-- `isUserActionAllowed`, with the globals `config.featureToggles` and
`contextSrv.user` made explicit arguments.  `!!permissions?.[permission]`
is falsy exactly when the permissions object is absent, the key is absent,
or the stored boolean is `false`. -/
def isUserActionAllowed (toggles : FeatureToggles) (user : ContextUser)
    (a : UserAction) : Bool :=
  if toggles.accessControlOnCall then
    match user.permissions with
    | some perms => (perms a.permission).getD false
    | none => false
  else
    userHasMinimumRequiredRole user.orgRole a.fallbackMinimumRoleRequired

/-- `generatePermissionString`. -/
def generatePermissionString (resource : Resource) (action : Action)
    ( includePrefix : Bool) : String :=
  (if includePrefix then ONCALL_PERMISSION_BASE ++ "." else "")
    ++ resource.str ++ ":" ++ action.str

/-- `constructAction` (the TypeScript default `includePrefix = true` is
passed explicitly at every use site below). -/
def constructAction (resource : Resource) (action : Action)
    (fallbackMinimumRoleRequired : OrgRole) ( includePrefix : Bool) : UserAction :=
  { permission := generatePermissionString resource action includePrefix
    fallbackMinimumRoleRequired := fallbackMinimumRoleRequired }

/-- The `Actions` union type naming the entries of the `UserActions` table. -/
inductive Actions where
  | AlertGroupsRead
  | AlertGroupsWrite
  | IntegrationsRead
  | IntegrationsWrite
  | IntegrationsTest
  | EscalationChainsRead
  | EscalationChainsWrite
  | SchedulesRead
  | SchedulesWrite
  | SchedulesExport
  | ChatOpsRead
  | ChatOpsWrite
  | ChatOpsUpdateSettings
  | OutgoingWebhooksRead
  | OutgoingWebhooksWrite
  | MaintenanceRead
  | MaintenanceWrite
  | APIKeysRead
  | APIKeysWrite
  | NotificationsRead
  | NotificationSettingsRead
  | NotificationSettingsWrite
  | UserSettingsRead
  | UserSettingsWrite
  | UserSettingsAdmin
  | OtherSettingsRead
  | OtherSettingsWrite
  | TeamsWrite
  | PluginsInstall
  deriving DecidableEq, Repr, Fintype

/-- The `UserActions` table, entry for entry. -/
def UserActions : Actions → UserAction
  | .AlertGroupsRead => constructAction .ALERT_GROUPS .READ .Viewer true
  | .AlertGroupsWrite => constructAction .ALERT_GROUPS .WRITE .Editor true
  | .IntegrationsRead => constructAction .INTEGRATIONS .READ .Viewer true
  | .IntegrationsWrite => constructAction .INTEGRATIONS .WRITE .Admin true
  | .IntegrationsTest => constructAction .INTEGRATIONS .TEST .Editor true
  | .EscalationChainsRead => constructAction .ESCALATION_CHAINS .READ .Viewer true
  | .EscalationChainsWrite => constructAction .ESCALATION_CHAINS .WRITE .Admin true
  | .SchedulesRead => constructAction .SCHEDULES .READ .Viewer true
  | .SchedulesWrite => constructAction .SCHEDULES .WRITE .Admin true
  | .SchedulesExport => constructAction .SCHEDULES .WRITE .Editor true
  | .ChatOpsRead => constructAction .CHATOPS .READ .Viewer true
  | .ChatOpsWrite => constructAction .CHATOPS .WRITE .Editor true
  | .ChatOpsUpdateSettings => constructAction .CHATOPS .UPDATE_SETTINGS .Admin true
  | .OutgoingWebhooksRead => constructAction .OUTGOING_WEBHOOKS .READ .Viewer true
  | .OutgoingWebhooksWrite => constructAction .OUTGOING_WEBHOOKS .WRITE .Admin true
  | .MaintenanceRead => constructAction .MAINTENANCE .READ .Viewer true
  | .MaintenanceWrite => constructAction .MAINTENANCE .WRITE .Editor true
  | .APIKeysRead => constructAction .API_KEYS .READ .Viewer true
  | .APIKeysWrite => constructAction .API_KEYS .WRITE .Editor true
  | .NotificationsRead => constructAction .NOTIFICATIONS .READ .Editor true
  | .NotificationSettingsRead => constructAction .NOTIFICATION_SETTINGS .READ .Viewer true
  | .NotificationSettingsWrite => constructAction .NOTIFICATION_SETTINGS .WRITE .Editor true
  | .UserSettingsRead => constructAction .USER_SETTINGS .READ .Viewer true
  | .UserSettingsWrite => constructAction .USER_SETTINGS .WRITE .Editor true
  | .UserSettingsAdmin => constructAction .USER_SETTINGS .ADMIN .Admin true
  | .OtherSettingsRead => constructAction .OTHER_SETTINGS .READ .Viewer true
  | .OtherSettingsWrite => constructAction .OTHER_SETTINGS .WRITE .Admin true
  | .TeamsWrite => constructAction .TEAMS .WRITE .Admin false
  | .PluginsInstall => constructAction .PLUGINS .INSTALL .Admin false

/-- The resource column of the `UserActions` table. -/
def resourceOf : Actions → Resource
  | .AlertGroupsRead => .ALERT_GROUPS
  | .AlertGroupsWrite => .ALERT_GROUPS
  | .IntegrationsRead => .INTEGRATIONS
  | .IntegrationsWrite => .INTEGRATIONS
  | .IntegrationsTest => .INTEGRATIONS
  | .EscalationChainsRead => .ESCALATION_CHAINS
  | .EscalationChainsWrite => .ESCALATION_CHAINS
  | .SchedulesRead => .SCHEDULES
  | .SchedulesWrite => .SCHEDULES
  | .SchedulesExport => .SCHEDULES
  | .ChatOpsRead => .CHATOPS
  | .ChatOpsWrite => .CHATOPS
  | .ChatOpsUpdateSettings => .CHATOPS
  | .OutgoingWebhooksRead => .OUTGOING_WEBHOOKS
  | .OutgoingWebhooksWrite => .OUTGOING_WEBHOOKS
  | .MaintenanceRead => .MAINTENANCE
  | .MaintenanceWrite => .MAINTENANCE
  | .APIKeysRead => .API_KEYS
  | .APIKeysWrite => .API_KEYS
  | .NotificationsRead => .NOTIFICATIONS
  | .NotificationSettingsRead => .NOTIFICATION_SETTINGS
  | .NotificationSettingsWrite => .NOTIFICATION_SETTINGS
  | .UserSettingsRead => .USER_SETTINGS
  | .UserSettingsWrite => .USER_SETTINGS
  | .UserSettingsAdmin => .USER_SETTINGS
  | .OtherSettingsRead => .OTHER_SETTINGS
  | .OtherSettingsWrite => .OTHER_SETTINGS
  | .TeamsWrite => .TEAMS
  | .PluginsInstall => .PLUGINS

/-- The action column of the `UserActions` table (note that
`SchedulesExport` is built with `Action.WRITE` in the source). -/
def actionOf : Actions → Action
  | .AlertGroupsRead => .READ
  | .AlertGroupsWrite => .WRITE
  | .IntegrationsRead => .READ
  | .IntegrationsWrite => .WRITE
  | .IntegrationsTest => .TEST
  | .EscalationChainsRead => .READ
  | .EscalationChainsWrite => .WRITE
  | .SchedulesRead => .READ
  | .SchedulesWrite => .WRITE
  | .SchedulesExport => .WRITE
  | .ChatOpsRead => .READ
  | .ChatOpsWrite => .WRITE
  | .ChatOpsUpdateSettings => .UPDATE_SETTINGS
  | .OutgoingWebhooksRead => .READ
  | .OutgoingWebhooksWrite => .WRITE
  | .MaintenanceRead => .READ
  | .MaintenanceWrite => .WRITE
  | .APIKeysRead => .READ
  | .APIKeysWrite => .WRITE
  | .NotificationsRead => .READ
  | .NotificationSettingsRead => .READ
  | .NotificationSettingsWrite => .WRITE
  | .UserSettingsRead => .READ
  | .UserSettingsWrite => .WRITE
  | .UserSettingsAdmin => .ADMIN
  | .OtherSettingsRead => .READ
  | .OtherSettingsWrite => .WRITE
  | .TeamsWrite => .WRITE
  | .PluginsInstall => .INSTALL

/-! ## Incidents page
The incident-list page component (`Incidents`): pagination window,
row selection, optimistic bulk actions and the 15-second polling
interval, modelled as a state-transition system.  `setInterval` is
modelled by drawing a fresh id from `nextIntervalId` and recording the
pair (id, period in milliseconds) in `activeIntervals`; `clearInterval`
removes the referenced id from `activeIntervals`. -/

def ITEMS_PER_PAGE : Int := 25

def POLLING_NUM_SECONDS : Nat := 15

/-- The `Pagination` state slice (`{ start, end }`). -/
structure Pagination where
  start : Int
  «end» : Int
  deriving DecidableEq, Repr

/-- The `prev`/`next` argument of `onChangeCursor`. -/
inductive Direction where
  | prev
  | next
  deriving DecidableEq, Repr

/-- The `delay` source for bulk actions: the handler receives either a
numeric event (silence delay) or some other synthetic event. -/
inductive BulkEvent where
  | num (n : Int)
  | other
  deriving DecidableEq, Repr

/-- One invocation of `store.alertGroupStore.bulkAction`. -/
structure BulkActionCall where
  action : String
  alert_group_pks : List String
  delay : Int
  deriving DecidableEq, Repr

/-- The query parameters read by the `Incidents` constructor, after
JavaScript coercion: `start`/`perpage` are `some n` exactly when the raw
query value passes `!isNaN(...)`, and `cursor` is `some c` exactly when
`cursorQuery` is truthy. -/
structure IncidentsQuery where
  cursor : Option String
  start : Option Int
  perpage : Option Int
  deriving DecidableEq, Repr

/-- The state of the `Incidents` component together with the store
fields it reads and writes (`incidentsCursor`, `incidentsItemsPerPage`,
`liveUpdatesPaused`), the timer bookkeeping, and a log of
`bulkAction` store calls. -/
structure IncidentsModel where
  selectedIncidentIds : List String
  affectedRows : String → Option Bool
  pagination : Pagination
  storeItemsPerPage : Int
  storeCursor : Option String
  liveUpdatesPaused : Bool
  pollingIntervalId : Option Nat
  activeIntervals : List (Nat × Nat)
  nextIntervalId : Nat
  bulkCalls : List BulkActionCall

/-- The `Incidents` constructor: defaults `start` to 1 and
`itemsPerPage` to `ITEMS_PER_PAGE`, seeds the store fields, and sets
`pagination = { start, end: start + itemsPerPage - 1 }`. -/
def incidentsConstructor (q : IncidentsQuery) : IncidentsModel :=
  let start := q.start.getD 1
  let itemsPerPage := q.perpage.getD ITEMS_PER_PAGE
  { selectedIncidentIds := []
    affectedRows := fun _ => none
    pagination := { start := start, «end» := start + itemsPerPage - 1 }
    storeItemsPerPage := itemsPerPage
    storeCursor := q.cursor
    liveUpdatesPaused := false
    pollingIntervalId := none
    activeIntervals := []
    nextIntervalId := 0
    bulkCalls := [] }

/-- `clearPollingInterval`: `clearInterval(this.pollingIntervalId)`
(a no-op on an id that is `undefined` or no longer active) followed by
`this.pollingIntervalId = undefined`. -/
def clearPollingInterval (s : IncidentsModel) : IncidentsModel :=
  { s with
    activeIntervals :=
      s.activeIntervals.filter fun iv => !(decide (s.pollingIntervalId = some iv.1))
    pollingIntervalId := none }

/-- `setPollingInterval`: `this.pollingIntervalId = setInterval(...,
POLLING_NUM_SECONDS * 1000)`; the previous value of the field is
overwritten without being cleared. -/
def setPollingInterval (s : IncidentsModel) : IncidentsModel :=
  { s with
    pollingIntervalId := some s.nextIntervalId
    activeIntervals := (s.nextIntervalId, POLLING_NUM_SECONDS * 1000) :: s.activeIntervals
    nextIntervalId := s.nextIntervalId + 1 }

/-- `handleFiltersChange`: empties the selection, resets the pagination
window when not mounting, then clears and restarts the polling interval
(the `fetchIncidentData` store call carries no component state). -/
def handleFiltersChange (isOnMount : Bool) (s : IncidentsModel) : IncidentsModel :=
  let s1 := { s with selectedIncidentIds := [] }
  let s2 :=
    if isOnMount then s1
    else { s1 with pagination := { start := 1, «end» := s1.storeItemsPerPage } }
  setPollingInterval (clearPollingInterval s2)

/-- `onChangeCursor`: stores the cursor, empties the selection, and
shifts the window by `incidentsItemsPerPage` (negated for `prev`). -/
def onChangeCursor (cursor : String) (direction : Direction)
    (s : IncidentsModel) : IncidentsModel :=
  let factor : Int := if direction = .prev then -1 else 1
  { s with
    storeCursor := some cursor
    selectedIncidentIds := []
    pagination :=
      { start := s.pagination.start + s.storeItemsPerPage * factor
        «end» := s.pagination.«end» + s.storeItemsPerPage * factor } }

/-- `handleChangeItemsPerPage`: `store.setIncidentsItemsPerPage(value)`
followed by emptying the selection and resetting the window to
`{ start: 1, end: store.incidentsItemsPerPage }`. -/
def handleChangeItemsPerPage (value : Int) (s : IncidentsModel) : IncidentsModel :=
  { s with
    storeItemsPerPage := value
    selectedIncidentIds := []
    pagination := { start := 1, «end» := value } }

/-- `handleSelectedIncidentIdsChange`: store the new selection, then
clear the polling interval when it is non-empty and start one when it is
empty. -/
def handleSelectedIncidentIdsChange (ids : List String)
    (s : IncidentsModel) : IncidentsModel :=
  let s1 := { s with selectedIncidentIds := ids }
  if ids.length > 0 then clearPollingInterval s1 else setPollingInterval s1

/-- One step of `selectedIncidentIds.reduce((acc, incidentId) =>
({ ...acc, [incidentId]: true }), affectedRows)`. -/
def setAffected (rows : String → Option Bool) (incidentId : String) :
    String → Option Bool :=
  fun k => if k = incidentId then some true else rows k

/-- `getBulkActionClickHandler`: captures the current selection, starts
a polling interval, pauses live updates, computes the delay from the
event, then empties the selection, marks every selected row in
`affectedRows`, and calls `bulkAction` once with the captured ids. -/
def getBulkActionClickHandler (action : String) (event : BulkEvent)
    (s : IncidentsModel) : IncidentsModel :=
  let selectedIncidentIds := s.selectedIncidentIds
  let affectedRows := s.affectedRows
  let s1 := setPollingInterval s
  let s2 := { s1 with liveUpdatesPaused := true }
  let delay : Int := match event with | .num n => n | .other => 0
  { s2 with
    selectedIncidentIds := []
    affectedRows := selectedIncidentIds.foldl setAffected affectedRows
    bulkCalls := s2.bulkCalls ++
      [{ action := action, alert_group_pks := selectedIncidentIds, delay := delay }] }

/-- `onIncidentsUpdateClick`: resets `affectedRows` to the empty object
(the `updateIncidents` store call carries no component state). -/
def onIncidentsUpdateClick (s : IncidentsModel) : IncidentsModel :=
  { s with affectedRows := fun _ => none }

/-- `Incidents.componentWillUnmount` calls `clearPollingInterval`. -/
def incidentsComponentWillUnmount (s : IncidentsModel) : IncidentsModel :=
  clearPollingInterval s

/-- The event-driven transitions of the `Incidents` page.  Guards encode
the UI: the table fires `handleSelectedIncidentIdsChange` only when the
selection actually changes, and every bulk-action control is disabled
(`disabled={!hasSelected}`) unless the selection is non-empty. -/
inductive IncidentsStep : IncidentsModel → IncidentsModel → Prop where
  | filtersChange (isOnMount : Bool) (s : IncidentsModel) :
      IncidentsStep s (handleFiltersChange isOnMount s)
  | selectChange (ids : List String) (s : IncidentsModel)
      (h : ids ≠ s.selectedIncidentIds) :
      IncidentsStep s (handleSelectedIncidentIdsChange ids s)
  | changeCursor (cursor : String) (d : Direction) (s : IncidentsModel) :
      IncidentsStep s (onChangeCursor cursor d s)
  | changeItemsPerPage (v : Int) (s : IncidentsModel) :
      IncidentsStep s (handleChangeItemsPerPage v s)
  | bulk (action : String) (event : BulkEvent) (s : IncidentsModel)
      (h : s.selectedIncidentIds ≠ []) :
      IncidentsStep s (getBulkActionClickHandler action event s)
  | updateClick (s : IncidentsModel) :
      IncidentsStep s (onIncidentsUpdateClick s)
  | unmount (s : IncidentsModel) :
      IncidentsStep s (incidentsComponentWillUnmount s)

/-- States of the `Incidents` page reachable from some construction. -/
inductive IncidentsReachable : IncidentsModel → Prop where
  | init (q : IncidentsQuery) : IncidentsReachable (incidentsConstructor q)
  | step {s t : IncidentsModel} :
      IncidentsReachable s → IncidentsStep s t → IncidentsReachable t

/-- The polling-interval invariant of the `Incidents` page: every live
interval is the one currently referenced by `pollingIntervalId` and has
the 15-second period, at most one interval is live, and none is live
while the selection is non-empty. -/
def PollInv (s : IncidentsModel) : Prop :=
  (∀ iv ∈ s.activeIntervals,
      s.pollingIntervalId = some iv.1 ∧ iv.2 = POLLING_NUM_SECONDS * 1000)
  ∧ s.activeIntervals.length ≤ 1
  ∧ (s.selectedIncidentIds ≠ [] → s.activeIntervals = [])

/-! ## Integrations page
The integrations page component (`Integrations`): query-param parsing
with the wrong-team error path, debounced filter application, the
creation-polling counter map `alertReceiveChanneltoPoll`, and the
single `setInterval` timer cleared on unmount. -/

/-- An alert-receive channel as far as these pages inspect it: its id. -/
structure AlertReceiveChannel where
  id : String
  deriving DecidableEq, Repr

/-- The state of the `Integrations` component relevant to the timer,
the counter map and the store's `selectedAlertReceiveChannel`, plus a
count of `updateItem` store calls made by timer ticks.  The counter map
(a plain object) is modelled as `String → Option Int`; the timer id
field is `none` while still `undefined`. -/
structure IntegrationsModel where
  alertReceiveChanneltoPoll : String → Option Int
  alertReceiveChannelTimerId : Option Nat
  activeTimers : List Nat
  nextTimerId : Nat
  selectedAlertReceiveChannel : Option String
  updateItemCalls : Nat

/-- The initial `Integrations` state: empty counter map, no timer. -/
def integrationsInit : IntegrationsModel :=
  { alertReceiveChanneltoPoll := fun _ => none
    alertReceiveChannelTimerId := none
    activeTimers := []
    nextTimerId := 0
    selectedAlertReceiveChannel := none
    updateItemCalls := 0 }

/-- `setSelectedAlertReceiveChannel` (the `LocationHelper` update has no
component state). -/
def setSelectedAlertReceiveChannel (id : Option String)
    (s : IntegrationsModel) : IntegrationsModel :=
  { s with selectedAlertReceiveChannel := id }

/-- `checkTimerTick`: when the selected channel has a counter, a
positive counter triggers one `updateItem` call and a decrement, and a
non-positive one deletes the entry; nothing else changes. -/
def checkTimerTick (s : IntegrationsModel) : IntegrationsModel :=
  match s.selectedAlertReceiveChannel with
  | none => s
  | some sel =>
    match s.alertReceiveChanneltoPoll sel with
    | none => s
    | some counter =>
      if counter > 0 then
        { s with
          updateItemCalls := s.updateItemCalls + 1
          alertReceiveChanneltoPoll :=
            fun k => if k = sel then some (counter - 1) else s.alertReceiveChanneltoPoll k }
      else
        { s with
          alertReceiveChanneltoPoll :=
            fun k => if k = sel then none else s.alertReceiveChanneltoPoll k }

/-- The success continuation of `handleCreateNewAlertReceiveChannel`:
selects the created channel and, when its integration is Grafana
Alerting, seeds its poll counter with 200 and starts the 3-second check
timer unless one is already running (`if (!this.alertReceiveChannelTimerId)`). -/
def handleCreateNewAlertReceiveChannel (newId : String)
    (isGrafanaAlerting : Bool) (s : IntegrationsModel) : IntegrationsModel :=
  let s1 := setSelectedAlertReceiveChannel (some newId) s
  if isGrafanaAlerting then
    let s2 := { s1 with
      alertReceiveChanneltoPoll :=
        fun k => if k = newId then some 200 else s1.alertReceiveChanneltoPoll k }
    match s2.alertReceiveChannelTimerId with
    | none =>
        { s2 with
          alertReceiveChannelTimerId := some s2.nextTimerId
          activeTimers := s2.nextTimerId :: s2.activeTimers
          nextTimerId := s2.nextTimerId + 1 }
    | some _ => s2
  else s1

/-- The first statement of `handleDeleteAlertReceiveChannel`:
`if (alertReceiveChanneltoPoll[alertReceiveChannelId]) delete ...` —
the entry is dropped when truthy (present and non-zero). -/
def deleteCounter (id : String) (s : IntegrationsModel) : IntegrationsModel :=
  match s.alertReceiveChanneltoPoll id with
  | some c =>
      if c ≠ 0 then
        { s with alertReceiveChanneltoPoll :=
            fun k => if k = id then none else s.alertReceiveChanneltoPoll k }
      else s
  | none => s

/-- `handleDeleteAlertReceiveChannel`: drops the channel's counter when
it is truthy (present and non-zero), and after the store deletion
re-selects the first search result when the deleted channel was
selected. -/
def handleDeleteAlertReceiveChannel (id : String)
    (searchResult : List AlertReceiveChannel) (s : IntegrationsModel) :
    IntegrationsModel :=
  let s1 := deleteCounter id s
  if s1.selectedAlertReceiveChannel = some id then
    setSelectedAlertReceiveChannel ((searchResult.head?).map (·.id)) s1
  else s1

/-- The selection fix-up at the end of `applyFilters`: keep the selected
channel when it occurs in the refreshed search result, otherwise select
the first result, or `undefined` when the result is empty. -/
def applyFilters (searchResult : List AlertReceiveChannel)
    (s : IntegrationsModel) : IntegrationsModel :=
  match searchResult.find? fun ch =>
      decide (some ch.id = s.selectedAlertReceiveChannel) with
  | some _ => s
  | none =>
    { s with selectedAlertReceiveChannel :=
        match searchResult with
        | [] => none
        | ch :: _ => some ch.id }

/-- `Integrations.componentWillUnmount`:
`clearInterval(this.alertReceiveChannelTimerId)` (the field itself is
not reset). -/
def integrationsComponentWillUnmount (s : IntegrationsModel) : IntegrationsModel :=
  { s with
    activeTimers :=
      s.activeTimers.filter fun t => !(decide (s.alertReceiveChannelTimerId = some t)) }

/-- The event-driven transitions of the `Integrations` page. -/
inductive IntegrationsStep : IntegrationsModel → IntegrationsModel → Prop where
  | tick (s : IntegrationsModel) : IntegrationsStep s (checkTimerTick s)
  | create (newId : String) (isGrafanaAlerting : Bool) (s : IntegrationsModel) :
      IntegrationsStep s (handleCreateNewAlertReceiveChannel newId isGrafanaAlerting s)
  | delete (id : String) (searchResult : List AlertReceiveChannel)
      (s : IntegrationsModel) :
      IntegrationsStep s (handleDeleteAlertReceiveChannel id searchResult s)
  | select (id : Option String) (s : IntegrationsModel) :
      IntegrationsStep s (setSelectedAlertReceiveChannel id s)
  | filters (searchResult : List AlertReceiveChannel) (s : IntegrationsModel) :
      IntegrationsStep s (applyFilters searchResult s)
  | unmount (s : IntegrationsModel) :
      IntegrationsStep s (integrationsComponentWillUnmount s)

/-- States of the `Integrations` page reachable from mount. -/
inductive IntegrationsReachable : IntegrationsModel → Prop where
  | init : IntegrationsReachable integrationsInit
  | step {s t : IntegrationsModel} :
      IntegrationsReachable s → IntegrationsStep s t → IntegrationsReachable t

/-- The timer/counter invariant of the `Integrations` page: every poll
counter is non-negative, every live timer is the one referenced by
`alertReceiveChannelTimerId`, at most one timer is live, and no timer is
live while the id field is still `undefined`. -/
def IntegrationsInv (s : IntegrationsModel) : Prop :=
  (∀ k c, s.alertReceiveChanneltoPoll k = some c → 0 ≤ c)
  ∧ (∀ t ∈ s.activeTimers, s.alertReceiveChannelTimerId = some t)
  ∧ s.activeTimers.length ≤ 1
  ∧ (s.alertReceiveChannelTimerId = none → s.activeTimers = [])

/-- The query parameters read by `parseQueryParams`. -/
structure IntegrationsQuery where
  id : Option String
  tab : Option String
  deriving DecidableEq, Repr

/-- The slice of `Integrations` state touched by `parseQueryParams`,
generic in the error-data type `E` owned by the externally supplied
`PageErrorHandlingWrapper`; `locationId` records the id written to the
URL by `setSelectedAlertReceiveChannel`. -/
structure IntegrationsPageState (E : Type) where
  errorData : E
  integrationSettingsTab : Option String
  alertReceiveChannelToShowSettings : Option String
  selectedAlertReceiveChannel : Option String
  locationId : Option String

/-- `parseQueryParams`, with the externally supplied error helpers
(`initErrorDataState`, `getWrongTeamResponseInfo`) and the store's
`loadItem` outcome passed as parameters: resets the error data, and when
`query.id` is present loads that channel — on failure it records the
wrong-team error info and returns early, on success (with a truthy id)
it adopts the loaded id, opens the settings tab when `query.tab` is
present, falls back to the first search result when nothing is selected,
and commits the selection. -/
def parseQueryParams (E C : Type) (initErrorDataState : E)
    (getWrongTeamResponseInfo : String → E) (q : IntegrationsQuery)
    (loadItem : String → Except String C) (idOfLoaded : C → Option String)
    (searchResult : List AlertReceiveChannel)
    (st : IntegrationsPageState E) : IntegrationsPageState E :=
  let st0 := { st with errorData := initErrorDataState }
  let commit := fun (selected : Option String) (st1 : IntegrationsPageState E) =>
    let selected1 :=
      match selected with
      | some v => some v
      | none => (searchResult.head?).map (·.id)
    { st1 with selectedAlertReceiveChannel := selected1, locationId := selected1 }
  match q.id with
  | none => commit st0.selectedAlertReceiveChannel st0
  | some qid =>
    match loadItem qid with
    | .error e => { st0 with errorData := getWrongTeamResponseInfo e }
    | .ok ch =>
      let selected :=
        match idOfLoaded ch with
        | some cid => some cid
        | none => st0.selectedAlertReceiveChannel
      let st1 :=
        match q.tab with
        | some tab =>
            { st0 with
              integrationSettingsTab := some tab
              alertReceiveChannelToShowSettings := some qid }
        | none => st0
      commit selected st1

/-- The pagination-window invariant of the `Incidents` page: the window
always spans exactly the store's `incidentsItemsPerPage` items. -/
def WidthInv (s : IncidentsModel) : Prop :=
  s.pagination.«end» = s.pagination.start + s.storeItemsPerPage - 1

/-! ### Concrete states used to instantiate the theorems -/

/-- A concrete RBAC permissions object granting exactly
`grafana-oncall-app.alert-groups:read`. -/
def demoPerms : String → Option Bool :=
  fun k => if k = "grafana-oncall-app.alert-groups:read" then some true else none

/-- A concrete `Incidents` state with two selected rows and no marked
rows, as produced by selecting rows right after construction. -/
def bulkDemoState : IncidentsModel :=
  { selectedIncidentIds := ["I1", "I2"]
    affectedRows := fun _ => none
    pagination := { start := 1, «end» := 25 }
    storeItemsPerPage := 25
    storeCursor := none
    liveUpdatesPaused := false
    pollingIntervalId := none
    activeIntervals := []
    nextIntervalId := 0
    bulkCalls := [] }

/-- A concrete `Integrations` page-state slice (error data modelled by
`Bool`) used to instantiate the error-atomicity theorem. -/
def parseDemoState : IntegrationsPageState Bool :=
  { errorData := false
    integrationSettingsTab := none
    alertReceiveChannelToShowSettings := none
    selectedAlertReceiveChannel := some "C1"
    locationId := some "C1" }

/-! ## Theorems -/

/-- Auxiliary: the `reduce` marking every selected id in `affectedRows`
yields `some true` on ids of the list and the previous entry elsewhere. -/
theorem foldl_setAffected (S : List String) (rows : String → Option Bool)
    (k : String) :
    S.foldl setAffected rows k = (if k ∈ S then some true else rows k) := by
  induction S generalizing rows with
  | nil => simp
  | cons x xs ih =>
    simp only [List.foldl_cons, ih, setAffected, List.mem_cons]
    by_cases hx : k = x
    · simp [hx]
    · by_cases hxs : k ∈ xs <;> simp [hx, hxs]

/-- Auxiliary: clearing removes every live interval when each live
interval is the referenced one. -/
theorem clearPollingInterval_active (s : IncidentsModel)
    (h : ∀ iv ∈ s.activeIntervals, s.pollingIntervalId = some iv.1) :
    (clearPollingInterval s).activeIntervals = [] := by
  simp only [clearPollingInterval]
  rw [List.filter_eq_nil_iff]
  intro iv hiv
  simp [h iv hiv]

/-- Auxiliary: a state with no live interval satisfies the polling
invariant. -/
theorem pollInv_of_active_nil (s : IncidentsModel)
    (ha : s.activeIntervals = []) : PollInv s := by
  refine ⟨?_, ?_, ?_⟩ <;> simp [ha]

/-- Auxiliary: starting an interval in a state with no live interval
and an empty selection re-establishes the polling invariant. -/
theorem pollInv_setPolling_of_empty (s : IncidentsModel)
    (ha : s.activeIntervals = []) (hsel : s.selectedIncidentIds = []) :
    PollInv (setPollingInterval s) := by
  refine ⟨?_, ?_, ?_⟩
  · intro iv hiv
    simp only [setPollingInterval, ha] at hiv
    simp only [List.mem_singleton] at hiv
    simp [setPollingInterval, hiv]
  · simp [setPollingInterval, ha]
  · intro hne
    simp [setPollingInterval, hsel] at hne

/-- Auxiliary: the polling invariant is preserved by every transition of
the `Incidents` page. -/
theorem pollInv_step {s t : IncidentsModel} (hs : PollInv s)
    (h : IncidentsStep s t) : PollInv t := by
  obtain ⟨h1, h2, h3⟩ := hs
  cases h with
  | filtersChange isOnMount =>
    unfold handleFiltersChange
    cases isOnMount
    · exact pollInv_setPolling_of_empty _
        (clearPollingInterval_active _ fun iv hiv => (h1 iv hiv).1) rfl
    · exact pollInv_setPolling_of_empty _
        (clearPollingInterval_active _ fun iv hiv => (h1 iv hiv).1) rfl
  | selectChange ids _ hne =>
    unfold handleSelectedIncidentIdsChange
    by_cases hid : ids = []
    · subst hid
      simp only [List.length_nil, gt_iff_lt, Nat.lt_irrefl, if_false]
      exact pollInv_setPolling_of_empty _ (h3 fun hc => hne hc.symm) rfl
    · rw [if_pos (List.length_pos.mpr hid)]
      exact pollInv_of_active_nil _
        (clearPollingInterval_active _ fun iv hiv => (h1 iv hiv).1)
  | changeCursor cursor d =>
    exact ⟨h1, h2, fun hne => absurd rfl hne⟩
  | changeItemsPerPage v =>
    exact ⟨h1, h2, fun hne => absurd rfl hne⟩
  | bulk action event _ hne =>
    have ha : s.activeIntervals = [] := h3 hne
    refine ⟨?_, ?_, ?_⟩
    · intro iv hiv
      simp only [getBulkActionClickHandler, setPollingInterval, ha,
        List.mem_singleton] at hiv
      simp [getBulkActionClickHandler, setPollingInterval, hiv]
    · simp [getBulkActionClickHandler, setPollingInterval, ha]
    · intro hc
      exact absurd rfl hc
  | updateClick =>
    exact ⟨h1, h2, h3⟩
  | unmount =>
    exact pollInv_of_active_nil _
      (clearPollingInterval_active _ fun iv hiv => (h1 iv hiv).1)

/-- Auxiliary: the polling invariant holds in every reachable state of
the `Incidents` page. -/
theorem pollInv_reachable {s : IncidentsModel} (h : IncidentsReachable s) :
    PollInv s := by
  induction h with
  | init q => exact pollInv_of_active_nil _ rfl
  | step _ hstep ih => exact pollInv_step ih hstep

/-- C1: for every `UserAction`, when the `accessControlOnCall` feature
toggle is enabled `isUserActionAllowed` returns true iff the current
user's permissions map contains a truthy entry for the action's
permission string, and when the toggle is disabled it returns exactly
`userHasMinimumRequiredRole fallbackMinimumRoleRequired`; no other state
enters the decision (the function reads nothing else). -/
theorem isUserActionAllowed_spec (toggles : FeatureToggles)
    (user : ContextUser) (a : UserAction) :
    (toggles.accessControlOnCall = true →
      (isUserActionAllowed toggles user a = true ↔
        ∃ perms, user.permissions = some perms
          ∧ perms a.permission = some true))
  ∧ (toggles.accessControlOnCall = false →
      isUserActionAllowed toggles user a =
        userHasMinimumRequiredRole user.orgRole a.fallbackMinimumRoleRequired) := by
  constructor
  · intro h
    unfold isUserActionAllowed
    rw [h]
    simp only [if_true]
    cases hp : user.permissions with
    | none => simp
    | some perms =>
      cases hb : perms a.permission with
      | none => simp [hb]
      | some b => cases b <;> simp [hb]
  · intro h
    unfold isUserActionAllowed
    rw [h]
    simp

/-- C1 witness: a concrete user whose permissions map grants
`grafana-oncall-app.alert-groups:read` with the toggle enabled. -/
theorem isUserActionAllowed_spec_witness :
    isUserActionAllowed ⟨true⟩ ⟨OrgRole.Viewer, some demoPerms⟩
        (UserActions Actions.AlertGroupsRead) = true ↔
      ∃ perms, (some demoPerms : Option (String → Option Bool)) = some perms
        ∧ perms (UserActions Actions.AlertGroupsRead).permission = some true :=
  (isUserActionAllowed_spec ⟨true⟩ ⟨OrgRole.Viewer, some demoPerms⟩
    (UserActions Actions.AlertGroupsRead)).1 rfl

/-- C2: `userHasMinimumRequiredRole` is the role-threshold check under
Admin > Editor > Viewer — it grants exactly Admin everything, Editor the
Editor- and Viewer-level thresholds, and Viewer only the Viewer-level
threshold — and it is monotone: whatever is granted to a role is granted
to every more privileged role. -/
theorem userHasMinimumRequiredRole_spec :
    (∀ r m : OrgRole, userHasMinimumRequiredRole r m = true ↔
      r = OrgRole.Admin
      ∨ (r = OrgRole.Editor ∧ (m = OrgRole.Editor ∨ m = OrgRole.Viewer))
      ∨ (r = OrgRole.Viewer ∧ m = OrgRole.Viewer))
  ∧ (∀ r r' m : OrgRole, roleMapping r' ≤ roleMapping r →
      userHasMinimumRequiredRole r m = true →
      userHasMinimumRequiredRole r' m = true) := by
  decide

/-- C2 witness: an Editor passes the Viewer threshold. -/
theorem userHasMinimumRequiredRole_spec_witness :
    userHasMinimumRequiredRole OrgRole.Editor OrgRole.Viewer = true :=
  (userHasMinimumRequiredRole_spec.1 OrgRole.Editor OrgRole.Viewer).mpr
    (Or.inr (Or.inl ⟨rfl, Or.inr rfl⟩))

/-- C9: every `UserActions` entry except `TeamsWrite` and
`PluginsInstall` has permission string
`grafana-oncall-app.<resource>:<action>`; those two entries have the
unprefixed strings `teams:write` and `plugins:install`; and
`generatePermissionString` returns the prefixed form exactly when
`includePrefix` is true. -/
theorem userActions_permission_strings (a : Actions) :
    (a ≠ Actions.TeamsWrite → a ≠ Actions.PluginsInstall →
      (UserActions a).permission =
        ONCALL_PERMISSION_BASE ++ "." ++ (resourceOf a).str ++ ":"
          ++ (actionOf a).str)
  ∧ (UserActions Actions.TeamsWrite).permission = "teams:write"
  ∧ (UserActions Actions.PluginsInstall).permission = "plugins:install"
  ∧ (∀ r : Resource, ∀ act : Action,
      generatePermissionString r act true =
        ONCALL_PERMISSION_BASE ++ "." ++ r.str ++ ":" ++ act.str
      ∧ generatePermissionString r act false = r.str ++ ":" ++ act.str) := by
  revert a
  decide

/-- C9 witness: the `AlertGroupsRead` entry carries the prefixed
permission string. -/
theorem userActions_permission_strings_witness :
    (UserActions Actions.AlertGroupsRead).permission =
      ONCALL_PERMISSION_BASE ++ "."
        ++ (resourceOf Actions.AlertGroupsRead).str ++ ":"
        ++ (actionOf Actions.AlertGroupsRead).str :=
  (userActions_permission_strings Actions.AlertGroupsRead).1
    (by decide) (by decide)

/-- Auxiliary: the pagination-window invariant is preserved by every
transition of the `Incidents` page. -/
theorem widthInv_step {s t : IncidentsModel} (hs : WidthInv s)
    (h : IncidentsStep s t) : WidthInv t := by
  unfold WidthInv at hs ⊢
  cases h with
  | filtersChange isOnMount _ =>
    unfold handleFiltersChange
    cases isOnMount
    · show (s.storeItemsPerPage : Int) = 1 + s.storeItemsPerPage - 1
      omega
    · exact hs
  | selectChange ids _ hne =>
    unfold handleSelectedIncidentIdsChange
    by_cases hid : ids = []
    · subst hid
      simp only [List.length_nil, gt_iff_lt, lt_self_iff_false, if_false]
      exact hs
    · rw [if_pos (List.length_pos.mpr hid)]
      exact hs
  | changeCursor cursor d _ =>
    simp only [onChangeCursor]
    cases d <;> simp <;> omega
  | changeItemsPerPage v _ =>
    show (v : Int) = 1 + v - 1
    omega
  | bulk action event _ hne => exact hs
  | updateClick _ => exact hs
  | unmount _ => exact hs

/-- Auxiliary: the pagination-window invariant holds in every reachable
state of the `Incidents` page. -/
theorem widthInv_reachable {s : IncidentsModel} (h : IncidentsReachable s) :
    WidthInv s := by
  induction h with
  | init q => rfl
  | step _ hstep ih => exact widthInv_step ih hstep

/-- C3: the `Incidents` pagination window always spans exactly the
store's `incidentsItemsPerPage` items: the constructor defaults `start`
to 1 and `itemsPerPage` to 25 and sets `end = start + itemsPerPage - 1`;
`handleChangeItemsPerPage` resets the window to `[1, itemsPerPage]`;
`onChangeCursor` shifts both ends by exactly `incidentsItemsPerPage`
(added for next, subtracted for prev), preserving the width; and the
width equals `incidentsItemsPerPage` in every reachable state. -/
theorem incidents_pagination_width_spec :
    (∀ q : IncidentsQuery,
        (incidentsConstructor q).pagination.start = q.start.getD 1
      ∧ (incidentsConstructor q).storeItemsPerPage =
          q.perpage.getD ITEMS_PER_PAGE
      ∧ (incidentsConstructor q).pagination.«end» =
          (incidentsConstructor q).pagination.start
            + (incidentsConstructor q).storeItemsPerPage - 1)
  ∧ (∀ (v : Int) (s : IncidentsModel),
        (handleChangeItemsPerPage v s).storeItemsPerPage = v
      ∧ (handleChangeItemsPerPage v s).pagination = { start := 1, «end» := v })
  ∧ (∀ (c : String) (s : IncidentsModel),
        (onChangeCursor c .next s).pagination.start =
          s.pagination.start + s.storeItemsPerPage
      ∧ (onChangeCursor c .next s).pagination.«end» =
          s.pagination.«end» + s.storeItemsPerPage
      ∧ (onChangeCursor c .prev s).pagination.start =
          s.pagination.start - s.storeItemsPerPage
      ∧ (onChangeCursor c .prev s).pagination.«end» =
          s.pagination.«end» - s.storeItemsPerPage)
  ∧ (∀ s : IncidentsModel, IncidentsReachable s →
      s.pagination.«end» - s.pagination.start + 1 = s.storeItemsPerPage) := by
  refine ⟨fun q => ⟨rfl, rfl, rfl⟩, fun v s => ⟨rfl, rfl⟩, fun c s => ?_, ?_⟩
  · refine ⟨?_, ?_, ?_, ?_⟩ <;> simp [onChangeCursor] <;> omega
  · intro s hs
    have := widthInv_reachable hs
    unfold WidthInv at this
    omega

/-- C3 witness: the invariant instantiated at a freshly constructed
state with no query parameters. -/
theorem incidents_pagination_width_spec_witness :
    (incidentsConstructor ⟨none, none, none⟩).pagination.«end»
      - (incidentsConstructor ⟨none, none, none⟩).pagination.start + 1 =
      (incidentsConstructor ⟨none, none, none⟩).storeItemsPerPage :=
  incidents_pagination_width_spec.2.2.2 _
    (IncidentsReachable.init ⟨none, none, none⟩)

/-- C4: a bulk action with selected ids S empties the selection, sets
`affectedRows[id] = true` for every id in S while leaving every
previously present entry unchanged (on page states, whose entries are
always `true`), leaves entries outside S untouched, and calls the
store's `bulkAction` exactly once, with `alert_group_pks = S` and the
numeric delay when the event is a number (0 otherwise). -/
theorem getBulkActionClickHandler_spec (action : String) (event : BulkEvent)
    (s : IncidentsModel)
    (hall : ∀ k b, s.affectedRows k = some b → b = true) :
    (getBulkActionClickHandler action event s).selectedIncidentIds = []
  ∧ (∀ id ∈ s.selectedIncidentIds,
      (getBulkActionClickHandler action event s).affectedRows id = some true)
  ∧ (∀ k b, s.affectedRows k = some b →
      (getBulkActionClickHandler action event s).affectedRows k = some b)
  ∧ (∀ k, k ∉ s.selectedIncidentIds →
      (getBulkActionClickHandler action event s).affectedRows k =
        s.affectedRows k)
  ∧ (getBulkActionClickHandler action event s).bulkCalls =
      s.bulkCalls ++
        [{ action := action
           alert_group_pks := s.selectedIncidentIds
           delay := match event with | .num n => n | .other => 0 }] := by
  refine ⟨rfl, ?_, ?_, ?_, rfl⟩
  · intro id hid
    show s.selectedIncidentIds.foldl setAffected s.affectedRows id = some true
    rw [foldl_setAffected, if_pos hid]
  · intro k b hk
    show s.selectedIncidentIds.foldl setAffected s.affectedRows k = some b
    rw [foldl_setAffected]
    by_cases hks : k ∈ s.selectedIncidentIds
    · rw [if_pos hks, hall k b hk]
    · rw [if_neg hks]
      exact hk
  · intro k hks
    show s.selectedIncidentIds.foldl setAffected s.affectedRows k =
      s.affectedRows k
    rw [foldl_setAffected, if_neg hks]

/-- C4 witness: two selected rows, an empty `affectedRows`, and a
silence event carrying a 300-second delay. -/
theorem getBulkActionClickHandler_spec_witness :
    (getBulkActionClickHandler "silence" (.num 300)
        bulkDemoState).affectedRows "I1" = some true :=
  (getBulkActionClickHandler_spec "silence" (.num 300) bulkDemoState
      (fun k b h => by simp [bulkDemoState] at h)).2.1
    "I1" (by simp [bulkDemoState])

/-- C5: polling on the `Incidents` page keeps at most one interval
active in every reachable state: a selection becoming non-empty clears
the interval, a selection becoming empty starts exactly one 15-second
interval, and whenever an interval is started without a preceding
explicit clear (selection emptied, bulk action) no interval is active. -/
theorem incidents_polling_at_most_one (s : IncidentsModel)
    (h : IncidentsReachable s) :
    s.activeIntervals.length ≤ 1
  ∧ (∀ ids, ids ≠ [] →
      (handleSelectedIncidentIdsChange ids s).activeIntervals = [])
  ∧ (s.selectedIncidentIds ≠ [] →
      (handleSelectedIncidentIdsChange [] s).activeIntervals =
        [(s.nextIntervalId, POLLING_NUM_SECONDS * 1000)])
  ∧ (s.selectedIncidentIds ≠ [] → s.activeIntervals = []) := by
  obtain ⟨h1, h2, h3⟩ := pollInv_reachable h
  refine ⟨h2, ?_, ?_, h3⟩
  · intro ids hid
    unfold handleSelectedIncidentIdsChange
    rw [if_pos (List.length_pos.mpr hid)]
    exact clearPollingInterval_active _ fun iv hiv => (h1 iv hiv).1
  · intro hsel
    unfold handleSelectedIncidentIdsChange
    simp only [List.length_nil, gt_iff_lt, lt_self_iff_false, if_false]
    show (s.nextIntervalId, POLLING_NUM_SECONDS * 1000) :: s.activeIntervals =
      [(s.nextIntervalId, POLLING_NUM_SECONDS * 1000)]
    rw [h3 hsel]

/-- C5 witness: the bound instantiated at a freshly constructed state. -/
theorem incidents_polling_at_most_one_witness :
    (incidentsConstructor ⟨none, none, none⟩).activeIntervals.length ≤ 1 :=
  (incidents_polling_at_most_one _
    (IncidentsReachable.init ⟨none, none, none⟩)).1

/-- Auxiliary: changing only the selected channel preserves the
`Integrations` invariant. -/
theorem integrationsInv_setSelected (x : Option String)
    (u : IntegrationsModel) (h : IntegrationsInv u) :
    IntegrationsInv (setSelectedAlertReceiveChannel x u) := h

/-- Auxiliary: dropping a counter preserves the `Integrations`
invariant. -/
theorem integrationsInv_deleteCounter (id : String) (u : IntegrationsModel)
    (h : IntegrationsInv u) : IntegrationsInv (deleteCounter id u) := by
  obtain ⟨p1, p2, p3, p4⟩ := h
  unfold deleteCounter
  split
  · split
    · refine ⟨?_, p2, p3, p4⟩
      intro k c hk
      have hk' : (if k = id then none
          else u.alertReceiveChanneltoPoll k) = some c := hk
      by_cases hks : k = id
      · rw [if_pos hks] at hk'
        exact absurd hk' (by simp)
      · rw [if_neg hks] at hk'
        exact p1 k c hk'
    · exact ⟨p1, p2, p3, p4⟩
  · exact ⟨p1, p2, p3, p4⟩

/-- Auxiliary: clearing the check timer removes every live timer when
each live timer is the referenced one. -/
theorem integrationsUnmount_timers (t : IntegrationsModel)
    (h : ∀ x ∈ t.activeTimers, t.alertReceiveChannelTimerId = some x) :
    (integrationsComponentWillUnmount t).activeTimers = [] := by
  simp only [integrationsComponentWillUnmount]
  rw [List.filter_eq_nil_iff]
  intro x hx
  simp [h x hx]

/-- Auxiliary: the `Integrations` invariant is preserved by every
transition of the page. -/
theorem integrationsInv_step {s t : IntegrationsModel}
    (hs : IntegrationsInv s) (h : IntegrationsStep s t) :
    IntegrationsInv t := by
  obtain ⟨p1, p2, p3, p4⟩ := hs
  cases h with
  | tick _ =>
    unfold checkTimerTick
    split
    · exact ⟨p1, p2, p3, p4⟩
    · next sel hsel =>
      split
      · exact ⟨p1, p2, p3, p4⟩
      · next counter hc =>
        split
        · next hpos =>
          refine ⟨?_, p2, p3, p4⟩
          intro k c hk
          have hk' : (if k = sel then some (counter - 1)
              else s.alertReceiveChanneltoPoll k) = some c := hk
          by_cases hks : k = sel
          · rw [if_pos hks] at hk'
            have : counter - 1 = c := by injection hk'
            omega
          · rw [if_neg hks] at hk'
            exact p1 k c hk'
        · next hpos =>
          refine ⟨?_, p2, p3, p4⟩
          intro k c hk
          have hk' : (if k = sel then none
              else s.alertReceiveChanneltoPoll k) = some c := hk
          by_cases hks : k = sel
          · rw [if_pos hks] at hk'
            exact absurd hk' (by simp)
          · rw [if_neg hks] at hk'
            exact p1 k c hk'
  | create newId isGrafanaAlerting _ =>
    unfold handleCreateNewAlertReceiveChannel setSelectedAlertReceiveChannel
    dsimp only
    have hpoll : ∀ (k : String) (c : Int),
        (if k = newId then some 200
          else s.alertReceiveChanneltoPoll k) = some c → (0 : Int) ≤ c := by
      intro k c hk
      by_cases hks : k = newId
      · rw [if_pos hks] at hk
        have : (200 : Int) = c := by injection hk
        omega
      · rw [if_neg hks] at hk
        exact p1 k c hk
    split
    · split
      · next htid =>
        have hempty : s.activeTimers = [] := p4 htid
        refine ⟨hpoll, ?_, ?_, ?_⟩
        · intro x hx
          rw [hempty] at hx
          simp only [List.mem_singleton] at hx
          rw [hx]
        · rw [hempty]
          simp
        · intro hn
          exact absurd hn (by simp)
      · next tid htid =>
        exact ⟨hpoll, p2, p3, p4⟩
    · exact ⟨p1, p2, p3, p4⟩
  | delete id searchResult _ =>
    unfold handleDeleteAlertReceiveChannel
    dsimp only
    have hinv : IntegrationsInv (deleteCounter id s) :=
      integrationsInv_deleteCounter id s ⟨p1, p2, p3, p4⟩
    split
    · exact integrationsInv_setSelected _ _ hinv
    · exact hinv
  | select id _ => exact ⟨p1, p2, p3, p4⟩
  | filters searchResult _ =>
    unfold applyFilters
    split
    · exact ⟨p1, p2, p3, p4⟩
    · exact ⟨p1, p2, p3, p4⟩
  | unmount _ =>
    unfold integrationsComponentWillUnmount
    refine ⟨p1, ?_, ?_, ?_⟩
    · intro x hx
      rw [List.mem_filter] at hx
      exact p2 x hx.1
    · exact le_trans (List.length_filter_le _ _) p3
    · intro hn
      rw [p4 hn]
      rfl

/-- Auxiliary: the `Integrations` invariant holds in every reachable
state of the page. -/
theorem integrationsInv_reachable {s : IntegrationsModel}
    (h : IntegrationsReachable s) : IntegrationsInv s := by
  induction h with
  | init =>
    refine ⟨?_, ?_, ?_, ?_⟩ <;> simp [integrationsInit]
  | step _ hstep ih => exact integrationsInv_step ih hstep

/-- C6: unmounting cancels interval-based polling — the `Incidents`
page clears its polling interval and resets the id field to
`undefined`, and the `Integrations` page clears its
alert-receive-channel check timer — so no live interval remains to fire
periodic store fetches after unmount. -/
theorem unmount_cancels_polling (s : IncidentsModel) (t : IntegrationsModel)
    (hs : IncidentsReachable s) (ht : IntegrationsReachable t) :
    (incidentsComponentWillUnmount s).activeIntervals = []
  ∧ (incidentsComponentWillUnmount s).pollingIntervalId = none
  ∧ (integrationsComponentWillUnmount t).activeTimers = [] := by
  obtain ⟨h1, -, -⟩ := pollInv_reachable hs
  obtain ⟨-, q2, -, -⟩ := integrationsInv_reachable ht
  exact ⟨clearPollingInterval_active _ (fun iv hiv => (h1 iv hiv).1), rfl,
    integrationsUnmount_timers t q2⟩

/-- C6 witness: both pages unmounted right after mounting. -/
theorem unmount_cancels_polling_witness :
    (incidentsComponentWillUnmount
        (incidentsConstructor ⟨none, none, none⟩)).activeIntervals = []
  ∧ (incidentsComponentWillUnmount
        (incidentsConstructor ⟨none, none, none⟩)).pollingIntervalId = none
  ∧ (integrationsComponentWillUnmount integrationsInit).activeTimers = [] :=
  unmount_cancels_polling _ _ (IncidentsReachable.init ⟨none, none, none⟩)
    IntegrationsReachable.init

/-- C7: when loading the integration named by `query.id` fails,
`parseQueryParams` records the wrong-team error info into the
`errorData` state (the state a render passes to
`PageErrorHandlingWrapper`) and returns early: the resulting state is
the input state with only `errorData` replaced — the selected
integration and all other component state are unchanged. -/
theorem parseQueryParams_error_atomicity (E C : Type)
    (initErrorDataState : E) (getWrongTeamResponseInfo : String → E)
    (q : IntegrationsQuery) (loadItem : String → Except String C)
    (idOfLoaded : C → Option String)
    (searchResult : List AlertReceiveChannel)
    (st : IntegrationsPageState E) (qid : String) (hq : q.id = some qid)
    (e : String) (hfail : loadItem qid = .error e) :
    parseQueryParams E C initErrorDataState getWrongTeamResponseInfo q
        loadItem idOfLoaded searchResult st =
      { st with errorData := getWrongTeamResponseInfo e } := by
  unfold parseQueryParams
  rw [hq]
  dsimp only
  rw [hfail]

/-- C7 witness: a concrete wrong-team failure on `query.id = "X"`. -/
theorem parseQueryParams_error_atomicity_witness :
    parseQueryParams Bool Unit false (fun _ => true) ⟨some "X", none⟩
        (fun _ => .error "wrong team") (fun _ => none) [] parseDemoState =
      { parseDemoState with errorData := true } :=
  parseQueryParams_error_atomicity Bool Unit false (fun _ => true)
    ⟨some "X", none⟩ (fun _ => .error "wrong team") (fun _ => none) []
    parseDemoState "X" rfl "wrong team" rfl

/-- C8: after `applyFilters` refreshes the search result, the selected
alert-receive channel is a member of the result — kept unchanged when
the previous selection still occurs, otherwise the first element's id,
or `undefined` exactly when the result is empty. -/
theorem applyFilters_selected_member (res : List AlertReceiveChannel)
    (s : IntegrationsModel) :
    ((∃ ch ∈ res, some ch.id = s.selectedAlertReceiveChannel) →
      (applyFilters res s).selectedAlertReceiveChannel =
        s.selectedAlertReceiveChannel)
  ∧ ((¬ ∃ ch ∈ res, some ch.id = s.selectedAlertReceiveChannel) →
      (applyFilters res s).selectedAlertReceiveChannel =
        ((res.head?).map (·.id)))
  ∧ ((∃ ch ∈ res,
        (applyFilters res s).selectedAlertReceiveChannel = some ch.id)
      ∨ (res = []
        ∧ (applyFilters res s).selectedAlertReceiveChannel = none)) := by
  unfold applyFilters
  cases hf : res.find? fun ch =>
      decide (some ch.id = s.selectedAlertReceiveChannel) with
  | some ch =>
    have hmem := List.mem_of_find?_eq_some hf
    have hp := List.find?_some hf
    rw [decide_eq_true_eq] at hp
    refine ⟨fun _ => rfl, ?_, ?_⟩
    · intro hno
      exact absurd ⟨ch, hmem, hp⟩ hno
    · exact Or.inl ⟨ch, hmem, hp.symm⟩
  | none =>
    have hnone := List.find?_eq_none.mp hf
    refine ⟨?_, ?_, ?_⟩
    · intro hyes
      obtain ⟨ch, hmem, hid⟩ := hyes
      exact absurd hid (by simpa using hnone ch hmem)
    · intro _
      cases res with
      | nil => rfl
      | cons ch tl => rfl
    · cases res with
      | nil => exact Or.inr ⟨rfl, rfl⟩
      | cons ch tl => exact Or.inl ⟨ch, List.mem_cons_self ch tl, rfl⟩

/-- C8 witness: a refreshed result that no longer contains the previous
selection re-selects the first element. -/
theorem applyFilters_selected_member_witness :
    (applyFilters [⟨"A"⟩]
        integrationsInit).selectedAlertReceiveChannel = some "A" :=
  (applyFilters_selected_member [⟨"A"⟩] integrationsInit).2.1
    (by simp [integrationsInit])

/-- C10: every counter in `alertReceiveChanneltoPoll` is non-negative
in every reachable `Integrations` state, and a `checkTimerTick` step
changes at most the entry of the currently selected channel — a present
positive counter triggers exactly one `updateItem` store call and is
decremented by one, a present zero counter is removed without a store
call, and every other entry is unchanged. -/
theorem checkTimerTick_spec (s : IntegrationsModel)
    (h : IntegrationsReachable s) :
    (∀ k c, s.alertReceiveChanneltoPoll k = some c → 0 ≤ c)
  ∧ (∀ k, s.selectedAlertReceiveChannel ≠ some k →
      (checkTimerTick s).alertReceiveChanneltoPoll k =
        s.alertReceiveChanneltoPoll k)
  ∧ (∀ sel c, s.selectedAlertReceiveChannel = some sel →
      s.alertReceiveChanneltoPoll sel = some c →
      (0 < c →
        (checkTimerTick s).alertReceiveChanneltoPoll sel = some (c - 1)
        ∧ (checkTimerTick s).updateItemCalls = s.updateItemCalls + 1)
      ∧ (c = 0 →
        (checkTimerTick s).alertReceiveChanneltoPoll sel = none
        ∧ (checkTimerTick s).updateItemCalls = s.updateItemCalls)) := by
  obtain ⟨p1, -, -, -⟩ := integrationsInv_reachable h
  refine ⟨p1, ?_, ?_⟩
  · intro k hk
    unfold checkTimerTick
    split
    · rfl
    · next sel hsel =>
      split
      · rfl
      · next counter hc =>
        have hks : k ≠ sel := by
          intro hcontra
          rw [hcontra] at hk
          exact hk hsel
        split
        · show (if k = sel then some (counter - 1)
            else s.alertReceiveChanneltoPoll k) = s.alertReceiveChanneltoPoll k
          rw [if_neg hks]
        · show (if k = sel then none
            else s.alertReceiveChanneltoPoll k) = s.alertReceiveChanneltoPoll k
          rw [if_neg hks]
  · intro sel c hsel hc
    unfold checkTimerTick
    rw [hsel]
    dsimp only
    rw [hc]
    dsimp only
    constructor
    · intro hpos
      rw [if_pos hpos]
      exact ⟨by simp, rfl⟩
    · intro hzero
      rw [if_neg (by omega)]
      exact ⟨by simp, rfl⟩

/-- C10 witness: a tick in the initial state (no counter for any
channel) leaves every entry unchanged. -/
theorem checkTimerTick_spec_witness :
    (checkTimerTick integrationsInit).alertReceiveChanneltoPoll "A" =
      integrationsInit.alertReceiveChanneltoPoll "A" :=
  (checkTimerTick_spec integrationsInit IntegrationsReachable.init).2.1 "A"
    (by simp [integrationsInit])

end OnCall
